import Mathlib

/-!
Verification of `src/Source/dasTug/dasTugGameModeBase.h`, the only source
file of the repository.  The file declares a single empty class

  UCLASS()
  class DASTUG_API AdasTugGameModeBase : public AGameModeBase
  {
      GENERATED_BODY()
  };

publicly extending the Unreal Engine base game-mode type `AGameModeBase`,
with no members of its own.  We embed the declaration in two complementary
ways:

* a syntactic embedding (`dasTugGameModeBase_h`) recording exactly what the
  header declares: its includes, the `UCLASS()` reflection marker, the API
  export specifier, the base-class list, and the member list of the class
  body (which holds only the `GENERATED_BODY()` reflection marker);

* a semantic embedding: `AGameModeBase` models the engine's base type
  abstractly (its state is engine-owned and outside the repository, so it is
  a type parameter), and `AdasTugGameModeBase` is the structure extension
  with zero added fields, exactly as the class declaration extends the base
  with zero added members.  Inherited operations are the base operations
  lifted along the extension.
-/

/-- A member item of a C++ class body, as relevant to this header: a data
field, a method (with its `override` flag), a declared constructor, or the
engine's `GENERATED_BODY()` reflection marker. -/
inductive CppMember where
  | fieldDecl (type name : String)
  | methodDecl (name : String) (isOverride : Bool)
  | ctorDecl
  | generatedBody
deriving DecidableEq, Repr

/-- Whether a class-body member declares a data field. -/
def CppMember.isField : CppMember → Bool
  | .fieldDecl _ _ => true
  | _ => false

/-- Whether a class-body member declares a method. -/
def CppMember.isMethod : CppMember → Bool
  | .methodDecl _ _ => true
  | _ => false

/-- Whether a class-body member declares a method marked `override`. -/
def CppMember.isOverridingMethod : CppMember → Bool
  | .methodDecl _ ov => ov
  | _ => false

/-- Whether a class-body member declares a constructor. -/
def CppMember.isCtor : CppMember → Bool
  | .ctorDecl => true
  | _ => false

/-- A C++ class declaration, as relevant to this header: its name, the
optional API export specifier, the list of base classes (name paired with
whether the inheritance is public), whether the declaration is preceded by
the engine's `UCLASS()` reflection marker, and the member list of the body. -/
structure CppClassDecl where
  name : String
  apiSpec : Option String
  bases : List (String × Bool)
  hasUClass : Bool
  members : List CppMember
deriving DecidableEq, Repr

/-- A C++ header file, as relevant here: its `#include` lines and the class
declarations it contains. -/
structure HeaderFile where
  includes : List String
  classes : List CppClassDecl
deriving DecidableEq, Repr

/-- Syntactic embedding of `src/Source/dasTug/dasTugGameModeBase.h`: three
includes, and a single class `AdasTugGameModeBase` with export specifier
`DASTUG_API`, publicly extending `AGameModeBase`, preceded by `UCLASS()`,
whose body holds only the `GENERATED_BODY()` marker. -/
def dasTugGameModeBase_h : HeaderFile :=
  { includes := ["CoreMinimal.h",
                 "GameFramework/GameModeBase.h",
                 "dasTugGameModeBase.generated.h"],
    classes := [{ name := "AdasTugGameModeBase",
                  apiSpec := some "DASTUG_API",
                  bases := [("AGameModeBase", true)],
                  hasUClass := true,
                  members := [CppMember.generatedBody] }] }

/-- The engine's base game-mode type `AGameModeBase`.  It is external to the
repository (declared in `GameFramework/GameModeBase.h` of the host engine),
so its state is modelled abstractly: a value of an engine-owned state type
`σ`. -/
structure AGameModeBase (σ : Type) where
  engineState : σ
deriving DecidableEq, Repr

/-- Semantic embedding of the class `AdasTugGameModeBase` declared in
`src/Source/dasTug/dasTugGameModeBase.h`: it publicly extends
`AGameModeBase` and declares no fields, no methods and no constructor of its
own, so the structure extension adds zero fields. -/
structure AdasTugGameModeBase (σ : Type) extends AGameModeBase σ
deriving DecidableEq, Repr

/-- An operation of the base type: engine-owned, abstracted as any function
from a base value to a result together with an updated base value. -/
def BaseOp (σ α : Type) : Type := AGameModeBase σ → α × AGameModeBase σ

/-- The operation the derived class inherits from a base operation: since
the derived class overrides nothing, invoking the operation on a derived
object runs the base operation on the object's base subobject and leaves
the (empty) derived part untouched. -/
def inheritOp {σ α : Type} (op : BaseOp σ α) :
    AdasTugGameModeBase σ → α × AdasTugGameModeBase σ :=
  fun d => ((op d.toAGameModeBase).1, ⟨(op d.toAGameModeBase).2⟩)

/-- Modelled from the spec: "every method, state transition, and lifecycle
callback available on it is inherited unmodified from the host engine's base
type".  The spec-side derived operation is the base operation transported
along the forgetful map to the base and re-embedded verbatim. -/
def specDerivedOp {σ α : Type} (op : BaseOp σ α) :
    AdasTugGameModeBase σ → α × AdasTugGameModeBase σ :=
  fun d =>
    let r := op (AGameModeBase.mk d.engineState)
    (r.1, AdasTugGameModeBase.mk r.2)

/-- A possibly failing operation of the base type: engine-owned, abstracted
as any function from a base value to either an error of an engine-owned
error type `ε` or an updated base value. -/
def BaseOpE (σ ε : Type) : Type := AGameModeBase σ → Except ε (AGameModeBase σ)

/-- The possibly failing operation the derived class inherits from a
possibly failing base operation. -/
def inheritOpE {σ ε : Type} (op : BaseOpE σ ε) :
    AdasTugGameModeBase σ → Except ε (AdasTugGameModeBase σ) :=
  fun d => (op d.toAGameModeBase).map AdasTugGameModeBase.mk

/-- Default construction of the derived class: the class declares no
constructor, so the implicit default constructor runs exactly the base
constructor and nothing else.  The base constructor is engine-owned, so it
is abstracted as the base value `b0` it produces; the derived constructor
wraps it unchanged. -/
def defaultConstruct {σ : Type} (b0 : AGameModeBase σ) : AdasTugGameModeBase σ :=
  ⟨b0⟩

/-- Modelled from the spec: "this type must be instantiable and loadable by
the engine's reflection/object system as a game-mode instance".  The engine
accepts a class declaration in a header as a loadable game-mode class when
the declaration carries the `UCLASS()` marker, its body carries the
`GENERATED_BODY()` marker, the header includes the generated header
`<name>.generated.h` (with the leading `A` of the class name stripped), and
the class publicly derives from the engine's game-mode base
`AGameModeBase`. -/
def engineLoadable (h : HeaderFile) (c : CppClassDecl) : Bool :=
  c.hasUClass &&
  c.members.contains CppMember.generatedBody &&
  h.includes.contains ((c.name.drop 1) ++ ".generated.h") &&
  c.bases.contains ("AGameModeBase", true)

/-- The state isomorphism between the derived class and the base class: the
derived class adds zero fields, so forgetting to the base subobject and
re-wrapping are mutually inverse. -/
def derivedBaseEquiv (σ : Type) : AdasTugGameModeBase σ ≃ AGameModeBase σ :=
  { toFun := AdasTugGameModeBase.toAGameModeBase,
    invFun := AdasTugGameModeBase.mk,
    left_inv := fun _ => rfl,
    right_inv := fun _ => rfl }

/- ## Theorems -/

/-- C1: `AdasTugGameModeBase` overrides nothing.  Syntactically, the sole
class declared in the header has no member marked `override` (its body holds
only the `GENERATED_BODY()` marker); semantically, every operation available
on the derived type behaves exactly as the inherited base operation: the
source-side inherited operation coincides with the spec-side "inherited
unmodified" operation, and its behavior on a derived object is exactly the
base operation's behavior on the base subobject. -/
theorem adasTug_overrides_nothing (σ α : Type) (op : BaseOp σ α) :
    (∀ c ∈ dasTugGameModeBase_h.classes,
        c.members.all (fun m => !m.isOverridingMethod) = true) ∧
    inheritOp op = specDerivedOp op ∧
    (∀ d : AdasTugGameModeBase σ,
        (inheritOp op d).1 = (op d.toAGameModeBase).1 ∧
        (inheritOp op d).2.toAGameModeBase = (op d.toAGameModeBase).2) := by
  refine ⟨?_, rfl, fun d => ⟨rfl, rfl⟩⟩
  intro c hc
  simp [dasTugGameModeBase_h] at hc
  subst hc
  rfl

/-- Witness for C1 at a concrete operation: over state type `Nat`, the
identity base operation, the inherited operation coincides with the
spec-side unmodified operation. -/
theorem adasTug_overrides_nothing_witness :
    inheritOp (fun b : AGameModeBase Nat => ((), b)) =
      specDerivedOp (fun b : AGameModeBase Nat => ((), b)) :=
  (adasTug_overrides_nothing Nat Unit (fun b => ((), b))).2.1

/-- C2: every instantiation of the derived class is a valid base value and
carries nothing beyond it: each derived object yields a base value via its
base subobject, re-embedding that base value reproduces the object exactly,
and every run of an operation on the object is determined by the base
operation on that base value. -/
theorem adasTug_satisfies_base_contract (σ α : Type)
    (d : AdasTugGameModeBase σ) (op : BaseOp σ α) :
    AdasTugGameModeBase.mk d.toAGameModeBase = d ∧
    inheritOp op d =
      ((op d.toAGameModeBase).1,
        AdasTugGameModeBase.mk (op d.toAGameModeBase).2) := by
  exact ⟨rfl, rfl⟩

/-- C3: the header declares exactly one class; that class publicly extends
the engine's base game-mode type and declares no fields, no methods and no
constructor: its body holds only the `GENERATED_BODY()` marker. -/
theorem adasTug_single_empty_class :
    dasTugGameModeBase_h.classes.length = 1 ∧
    ∀ c ∈ dasTugGameModeBase_h.classes,
      c.name = "AdasTugGameModeBase" ∧
      c.bases = [("AGameModeBase", true)] ∧
      c.members.all (fun m => !m.isField) = true ∧
      c.members.all (fun m => !m.isMethod) = true ∧
      c.members.all (fun m => !m.isCtor) = true ∧
      c.members = [CppMember.generatedBody] := by
  refine ⟨rfl, ?_⟩
  intro c hc
  simp [dasTugGameModeBase_h] at hc
  subst hc
  exact ⟨rfl, rfl, rfl, rfl, rfl, rfl⟩

/-- Witness for C3: the header declares exactly one class. -/
theorem adasTug_single_empty_class_witness :
    dasTugGameModeBase_h.classes.length = 1 :=
  adasTug_single_empty_class.1

/-- C4: the derived class carries no fields and no invariants beyond the
base's.  Every invariant of the base type preserved by a base operation is
preserved, through the base subobject, by the inherited operation on the
derived type; and the derived type adds no invariant of its own: every
predicate on derived values factors through the base subobject. -/
theorem adasTug_no_new_invariants (σ : Type)
    (P : AGameModeBase σ → Prop) (op : BaseOp σ Unit)
    (hpres : ∀ b : AGameModeBase σ, P b → P (op b).2) :
    (∀ d : AdasTugGameModeBase σ,
        P d.toAGameModeBase → P (inheritOp op d).2.toAGameModeBase) ∧
    (∀ Q : AdasTugGameModeBase σ → Prop, ∀ d : AdasTugGameModeBase σ,
        Q d ↔ Q (AdasTugGameModeBase.mk d.toAGameModeBase)) := by
  constructor
  · intro d hd
    exact hpres d.toAGameModeBase hd
  · intro Q d
    exact Iff.rfl

/-- Witness for C4 at a concrete invariant: over state type `Nat`, the
invariant "state is positive" is preserved by the doubling base operation,
and the theorem transports it to the derived type. -/
theorem adasTug_no_new_invariants_witness :
    (∀ d : AdasTugGameModeBase Nat,
        0 < d.toAGameModeBase.engineState →
        0 < (inheritOp (fun b => ((), AGameModeBase.mk (2 * b.engineState)))
              d).2.toAGameModeBase.engineState) ∧
    (∀ Q : AdasTugGameModeBase Nat → Prop, ∀ d : AdasTugGameModeBase Nat,
        Q d ↔ Q (AdasTugGameModeBase.mk d.toAGameModeBase)) :=
  adasTug_no_new_invariants Nat (fun b => 0 < b.engineState)
    (fun b => ((), AGameModeBase.mk (2 * b.engineState)))
    (fun b hb => Nat.mul_pos (by decide) hb)

/-- C5: no failure behavior originates from this source: for every possibly
failing base operation, the inherited operation on a derived object raises
an error `e` exactly when the base operation raises `e` on the base
subobject, and succeeds with a derived value exactly when the base operation
succeeds with its base part; no error case is introduced by the derived
class. -/
theorem adasTug_no_own_errors (σ ε : Type) (op : BaseOpE σ ε)
    (d : AdasTugGameModeBase σ) :
    (∀ e : ε, inheritOpE op d = Except.error e ↔
        op d.toAGameModeBase = Except.error e) ∧
    (∀ d' : AdasTugGameModeBase σ, inheritOpE op d = Except.ok d' ↔
        op d.toAGameModeBase = Except.ok d'.toAGameModeBase) := by
  constructor
  · intro e
    unfold inheritOpE
    cases hop : op d.toAGameModeBase with
    | error e' => simp [Except.map]
    | ok b => simp [Except.map]
  · intro d'
    unfold inheritOpE
    cases hop : op d.toAGameModeBase with
    | error e' => simp [Except.map]
    | ok b =>
      simp only [Except.map, Except.ok.injEq]
      constructor
      · intro h
        subst h
        rfl
      · intro h
        cases d' with
        | mk base => cases h; rfl

/-- C6: the class declaration is loadable by the engine's reflection system
as a game-mode class: it carries the `UCLASS()` marker, its body carries the
`GENERATED_BODY()` marker, the header includes the generated header, and it
publicly derives from the engine's base game-mode type, which is what the
engine's object system requires of a loadable game-mode class. -/
theorem adasTug_engine_loadable :
    ∀ c ∈ dasTugGameModeBase_h.classes,
      engineLoadable dasTugGameModeBase_h c = true := by
  intro c hc
  simp [dasTugGameModeBase_h] at hc
  subst hc
  rfl

/-- Witness for C6 at the class the header declares: the engine's
loadability check accepts it. -/
theorem adasTug_engine_loadable_witness :
    engineLoadable dasTugGameModeBase_h
      { name := "AdasTugGameModeBase",
        apiSpec := some "DASTUG_API",
        bases := [("AGameModeBase", true)],
        hasUClass := true,
        members := [CppMember.generatedBody] } = true :=
  adasTug_engine_loadable
    { name := "AdasTugGameModeBase",
      apiSpec := some "DASTUG_API",
      bases := [("AGameModeBase", true)],
      hasUClass := true,
      members := [CppMember.generatedBody] }
    (by simp [dasTugGameModeBase_h])

/-- C7: the source introduces no concurrency behavior because it defines no
operations at all: every member of the sole declared class's body is the
`GENERATED_BODY()` reflection marker, so the class contributes no method, no
field and no constructor, hence no scheduling, ordering or shared-resource
behavior of its own. -/
theorem adasTug_no_concurrency :
    ∀ c ∈ dasTugGameModeBase_h.classes,
      ∀ m ∈ c.members, m = CppMember.generatedBody := by
  intro c hc m hm
  simp [dasTugGameModeBase_h] at hc
  subst hc
  simpa using hm

/-- Witness for C7 at the only member of the class body: it is the
`GENERATED_BODY()` marker. -/
theorem adasTug_no_concurrency_witness :
    CppMember.generatedBody = CppMember.generatedBody :=
  adasTug_no_concurrency
    { name := "AdasTugGameModeBase",
      apiSpec := some "DASTUG_API",
      bases := [("AGameModeBase", true)],
      hasUClass := true,
      members := [CppMember.generatedBody] }
    (by simp [dasTugGameModeBase_h])
    CppMember.generatedBody (by simp)

/-- C8: the state type of the derived class is isomorphic to the state type
of the base: the forgetful map to the base subobject and the re-embedding
compose to the identity both ways, and two derived values with equal base
subobjects are equal. -/
theorem adasTug_state_iso (σ : Type) :
    (∀ d : AdasTugGameModeBase σ, (derivedBaseEquiv σ).symm ((derivedBaseEquiv σ) d) = d) ∧
    (∀ b : AGameModeBase σ, (derivedBaseEquiv σ) ((derivedBaseEquiv σ).symm b) = b) ∧
    (∀ d₁ d₂ : AdasTugGameModeBase σ,
        d₁.toAGameModeBase = d₂.toAGameModeBase → d₁ = d₂) := by
  refine ⟨fun d => rfl, fun b => rfl, ?_⟩
  intro d₁ d₂ h
  cases d₁
  cases d₂
  cases h
  rfl

/-- Witness for C8 at two concrete derived values over state type `Nat`
whose base subobjects are equal: the values are equal. -/
theorem adasTug_state_iso_witness :
    AdasTugGameModeBase.mk (AGameModeBase.mk (3 : Nat)) =
      AdasTugGameModeBase.mk (AGameModeBase.mk 3) :=
  (adasTug_state_iso Nat).2.2 _ _ rfl

/-- C9: default construction of the derived class performs exactly the base
construction and nothing else: whatever base value `b0` the engine's base
constructor produces, the derived object's base subobject is exactly `b0`,
and every inherited field holds exactly the value the base constructor gave
it. -/
theorem adasTug_default_construct_frame (σ : Type) (b0 : AGameModeBase σ) :
    (defaultConstruct b0).toAGameModeBase = b0 ∧
    (defaultConstruct b0).engineState = b0.engineState := by
  exact ⟨rfl, rfl⟩
